import Mathlib

/-!
# Verification of the advancedDirsearch scan/screenshot pipeline

Shallow embedding of the Python sources `advancedDirsearch_v2.py` and
`advancedDirsearch_v3.py` (the dirsearch wrapper that captures screenshots
of discovered URLs), together with proofs and refutations of the spec's
claims about them.

Conventions:
* Python strings are modelled as `String`/`List Char`.
* Filesystem contents relevant to a function are passed explicitly
  (e.g. the size of the file at a destination path is an `Option Nat`,
  `none` meaning "no file").
* The external browser engine and the report file are modelled as explicit
  environments/inputs, exactly at the call boundary the code uses.
-/

set_option maxRecDepth 4000

namespace AdvancedDirsearch

/-! ## Character classes used by the Python code (ASCII view) -/

/-- `\d` of the regexes: an ASCII digit. -/
def pyDigit (c : Char) : Bool := '0' ≤ c && c ≤ '9'

/-- `\s` of the regexes / `str.strip`: ASCII whitespace
(space, tab, newline, carriage return, vertical tab, form feed). -/
def pySpace (c : Char) : Bool :=
  c = ' ' || c = '\t' || c = '\n' || c = '\r' || c = '\x0b' || c = '\x0c'

/-- The character class `[a-zA-Z0-9_-]` kept by the final substitution in
`sanitize_path_for_filename` (v3 line 72). -/
def allowedChar (c : Char) : Bool :=
  ('a' ≤ c && c ≤ 'z') || ('A' ≤ c && c ≤ 'Z') || ('0' ≤ c && c ≤ '9') ||
    c = '_' || c = '-'

/-- ASCII lower-casing, as performed by `re.IGNORECASE` matching of the
extension alternatives. -/
def pyLower (c : Char) : Char :=
  if 'A' ≤ c && c ≤ 'Z' then Char.ofNat (c.toNat + 32) else c

/-! ## `sanitize_path_for_filename` (v3 lines 66-73) -/

/-- The extension alternatives of the regex
`\.(php|html|htm|asp|aspx|jsp|txt)$` (v3 line 71), in source order. -/
def pageExtensions : List (List Char) :=
  ["php", "html", "htm", "asp", "aspx", "jsp", "txt"].map String.toList

/-- One step of `re.sub(r"\.(php|html|htm|asp|aspx|jsp|txt)$", "", s, re.IGNORECASE)`
for a string with no trailing newline: if the string case-insensitively ends in
a dot followed by one of the listed extensions, that suffix is removed. -/
def stripExtensionAtEnd (cs : List Char) : List Char :=
  match pageExtensions.find? (fun e => ('.' :: e).isSuffixOf (cs.map pyLower)) with
  | some e => cs.take (cs.length - (e.length + 1))
  | none => cs

/-- `re.sub(r"\.(php|html|htm|asp|aspx|jsp|txt)$", "", s, re.IGNORECASE)`.
Python's `$` (without `re.MULTILINE`) matches at the end of the string or just
before a single trailing newline, so a trailing newline is carried over. -/
def stripPageExtension (cs : List Char) : List Char :=
  if cs.getLast? = some '\n' then stripExtensionAtEnd cs.dropLast ++ ['\n']
  else stripExtensionAtEnd cs

/-- The sanitization pipeline of `sanitize_path_for_filename` before the
final emptiness fallback (v3 lines 69-72):
`path_str.split('?')[0].strip('/')`, then `.replace('/', '_')`, then the
extension-stripping substitution, then removal of all characters outside
`[a-zA-Z0-9_-]`. -/
def sanitizeCore (s : String) : List Char :=
  let noQuery := s.toList.takeWhile (fun c => c ≠ '?')
  let stripped := ((noQuery.dropWhile (fun c => c = '/')).reverse.dropWhile
    (fun c => c = '/')).reverse
  let replaced := stripped.map (fun c => if c = '/' then '_' else c)
  (stripPageExtension replaced).filter allowedChar

/-- `sanitize_path_for_filename` (v3 lines 66-73). The empty string and `"/"`
return `"index"`; otherwise the sanitized core is returned, with `"page"` as
fallback when it is empty. -/
def sanitize_path_for_filename (s : String) : String :=
  if s = "" || s = "/" then "index"
  else
    let fin := sanitizeCore s
    if fin.isEmpty then "page" else String.mk fin

/-! ## `STATUS_CODE_PRIORITY` and `sort_results` (v2 lines 12-19, 50-52;
v3 lines 26-28) -/

/-- `STATUS_CODE_PRIORITY.get(status, STATUS_CODE_PRIORITY['default'])`:
the fixed status → priority table. -/
def priority (status : Nat) : Nat :=
  if status = 200 then 1
  else if status = 301 then 2
  else if status = 302 then 2
  else if status = 403 then 3
  else if status = 404 then 4
  else 5

/-- A parsed discovery-report record `(status_code, url)`. -/
abbrev DiscoveryRecord := Nat × String

/-- The Bool comparison `sort_results` sorts by: priority of the status code. -/
def priorityLE (a b : DiscoveryRecord) : Bool :=
  decide (priority a.1 ≤ priority b.1)

/-- `sort_results` (v2 lines 50-52): `sorted(results, key=priority-of-status)`.
Python's `sorted` is a stable sort by the key (a documented guarantee of the
language); a stable sort by a key is extensionally unique, so it is embedded
as `List.mergeSort`, which Lean's standard library proves stable. -/
def sort_results (results : List DiscoveryRecord) : List DiscoveryRecord :=
  results.mergeSort priorityLE

/-! ## `parse_dirsearch_output` (v3 lines 97-108)

The parser applies `re.match(r"(\d{3})\s+.*\s+(https?://.+)", line)` to each
line and on a match records `(int(group(1)), group(2).strip())`.

With Python's leftmost / greedy-with-backtracking semantics this concrete
pattern matches exactly when: the line starts with three digits, the fourth
character is whitespace (the first `\s+` must consume at least that
character), and there is a position `p ≥ 5` preceded by a whitespace
character at which `http://` or `https://` occurs with at least one further
character (`.+` is non-empty, and `.` does not match a newline, but report
lines contain none past their terminator).  Because `.*` is greedy and
backtracks from the right, `group(2)` starts at the *last* such position and
extends to the end of the line. -/

/-- `https?://` followed by at least one character, at the head of `cs`
(`.` of the regex cannot match a newline; report lines contain none). -/
def schemeAt (cs : List Char) : Bool :=
  ("http://".toList.isPrefixOf cs && decide (7 < cs.length)) ||
    ("https://".toList.isPrefixOf cs && decide (8 < cs.length))

/-- Position `p` can start `group(2)`: `p ≥ 5` (three digits, the mandatory
first `\s+` character, and at least one character for the second `\s+`),
the character before `p` is whitespace, and `https?://.+` matches at `p`. -/
def urlStartOk (cs : List Char) (p : Nat) : Bool :=
  5 ≤ p &&
    (match cs.get? (p - 1) with
     | some c => pySpace c
     | none => false) &&
    schemeAt (cs.drop p)

/-- Scan candidate start positions downward from `n - 1`; returns the
greatest admissible one, i.e. the start of `group(2)` chosen by the greedy
backtracking engine. -/
def lastUrlStartFrom (cs : List Char) : Nat → Option Nat
  | 0 => none
  | n + 1 => if urlStartOk cs n then some n else lastUrlStartFrom cs n

/-- The start position of `group(2)`: the greatest admissible position
(positions beyond `cs.length` are never admissible). -/
def lastUrlStart (cs : List Char) : Option Nat :=
  lastUrlStartFrom cs (cs.length + 1)

/-- The head of the pattern: `(\d{3})\s+` forces three leading digits and a
whitespace character right after them. -/
def headMatches (cs : List Char) : Bool :=
  match cs with
  | d₁ :: d₂ :: d₃ :: c :: _ => pyDigit d₁ && pyDigit d₂ && pyDigit d₃ && pySpace c
  | _ => false

/-- `int(group(1))`: the numeric value of the three leading digit characters. -/
def statusVal (cs : List Char) : Nat :=
  match cs with
  | d₁ :: d₂ :: d₃ :: _ =>
    (d₁.toNat - 48) * 100 + (d₂.toNat - 48) * 10 + (d₃.toNat - 48)
  | _ => 0

/-- `str.strip()`: remove leading and trailing Python whitespace. -/
def pyStrip (cs : List Char) : List Char :=
  ((cs.dropWhile pySpace).reverse.dropWhile pySpace).reverse

/-- Matching one report line (v3 lines 103-105): `none` when the regex does
not match, otherwise the extracted `(status, url)` record. -/
def parse_line (cs : List Char) : Option (Nat × List Char) :=
  if headMatches cs then
    match lastUrlStart cs with
    | some p => some (statusVal cs, pyStrip (cs.drop p))
    | none => none
  else none

/-- `parse_dirsearch_output` (v3 lines 97-108) over the report's lines:
non-matching lines are skipped, matching ones contribute a record.  A
missing report file is modelled by the caller passing no lines. -/
def parse_dirsearch_output (lines : List String) : List DiscoveryRecord :=
  lines.filterMap (fun l => (parse_line l.toList).map (fun r => (r.1, String.mk r.2)))

/-! ## Gating (v3 lines 32-57 and 234-267) -/

/-- `ask_with_timeout` (v3 lines 32-57), at the decision level: the prompt
thread either answers (`some b`, the y/n answer) or is still alive when the
join times out (`none`), in which case the default is returned. -/
def ask_with_timeout (answer : Option Bool) (default_on_timeout : Bool) : Bool :=
  match answer with
  | some b => b
  | none => default_on_timeout

/-- `results_200 = [res for res in results if res[0] == 200]` (v3 line 234). -/
def results_with_status_200 (results : List DiscoveryRecord) : List DiscoveryRecord :=
  results.filter (fun r => r.1 = 200)

/-- The tagged outcome of `run_scan_for_target` (v3 lines 211-281). -/
inductive ScanOutcome
  | completed (url gallery_path preview_path : String)
  | skipped
  | deferred (target_url : String) (results_200 : List DiscoveryRecord)
      (scan_screenshot_dir : String) (num_screenshots : Nat)
  | failed
deriving DecidableEq

/-- The gating section of `run_scan_for_target` (v3 lines 240-267), with
`num_screenshots = results_200.length + 1` (v3 line 235, `+1` for the base
capture).  `answer` is the prompt environment (`none` = the 10-second join
timed out).  Returns `none` when the scan proceeds to the capture phase, and
`some outcome` when the function returns early at the gate. -/
def run_scan_gate (target_url : String) (results_200 : List DiscoveryRecord)
    (scan_screenshot_dir : String) (answer : Option Bool) : Option ScanOutcome :=
  if results_200.length + 1 < 10 then none
  else if results_200.length + 1 ≤ 100 then
    if ask_with_timeout answer true then none else some .skipped
  else if ask_with_timeout answer false then none
  else some (.deferred target_url results_200 scan_screenshot_dir
    (results_200.length + 1))

/-! ## `capture_screenshot_task` (v3 lines 116-131) -/

/-- The browser-engine capability consumed by one capture, at the boundary
v3 lines 120-124 use it: each step either succeeds or raises (the error
message is the carried `String`).  A successful `screenshot` writes an image
of `n` bytes at the destination path. -/
structure CaptureEnv where
  newContext : Except String Unit
  newPage : Except String Unit
  goto : Except String Unit
  screenshot : Except String Nat

/-- The observable result of one capture: the size of the file at the
destination path afterwards (`none` = absent), whether a browsing context
was opened and whether it was closed, and the failure reason if the `except`
branch ran (`none` = success).  The function is total — the `except
Exception` clause (v3 line 126) means no capture error reaches the caller,
which the embedding reflects by not returning an `Except`. -/
structure CaptureResult where
  file : Option Nat
  contextOpened : Bool
  contextClosed : Bool
  failure : Option String
deriving DecidableEq

/-- `Path.touch()` (v3 line 129): creates an empty file when the path is
absent; an existing file keeps its contents (only metadata is updated). -/
def pyTouch (file : Option Nat) : Option Nat := some (file.getD 0)

/-- The `try` body (v3 lines 120-124): runs the four steps in order; an
error carries whether the context had already been created (`context` is
only non-`None` after `new_context` succeeded, v3 lines 118-120). -/
def capture_body (env : CaptureEnv) : Except (String × Bool) Nat :=
  match env.newContext with
  | .error e => .error (e, false)
  | .ok _ =>
    match env.newPage with
    | .error e => .error (e, true)
    | .ok _ =>
      match env.goto with
      | .error e => .error (e, true)
      | .ok _ =>
        match env.screenshot with
        | .error e => .error (e, true)
        | .ok n => .ok n

/-- `capture_screenshot_task` (v3 lines 116-131): on success the screenshot
engine has overwritten the destination with the image; on any failure the
`except` branch touches the destination; the `finally` branch closes the
context exactly when one was opened.  `file₀` is the file at the destination
path before the call. -/
def capture_screenshot_task (env : CaptureEnv) (file₀ : Option Nat) : CaptureResult :=
  match capture_body env with
  | .ok n => ⟨some n, true, true, none⟩
  | .error (e, opened) => ⟨pyTouch file₀, opened, opened, some e⟩

/-! ## `generate_gallery` (v3 lines 154-181) -/

/-- The gallery's image list (v3 line 155): names of the non-empty `.png`
files of the screenshot directory, sorted by name.  The directory listing is
passed as `(name, size)` pairs (glob order is filesystem-dependent; `sorted`
normalizes it). -/
def gallery_images (files : List (String × Nat)) : List String :=
  ((files.filter (fun f => 0 < f.2)).map (fun f => f.1)).mergeSort
    (fun a b => decide (a ≤ b))

/-- `generate_gallery` (v3 lines 154-158): when every screenshot file is
empty it returns early and writes nothing (`none`); otherwise it writes the
gallery page, one card per listed image (`some images`). -/
def generate_gallery (files : List (String × Nat)) : Option (List String) :=
  let images := gallery_images files
  if images.isEmpty then none else some images

/-- The tail of `run_scan_for_target` after the gate approved (v3 lines
269-281): captures run, `generate_gallery` is called (its early return is
ignored), and the function unconditionally returns the `completed` outcome
naming the gallery file.  The pair is (returned outcome, gallery actually
written). -/
def run_scan_completion (target_url gallery_path preview_path : String)
    (screenshot_files : List (String × Nat)) : ScanOutcome × Option (List String) :=
  (.completed target_url gallery_path preview_path, generate_gallery screenshot_files)

/-! ## Destination-path assignment in `process_all_screenshots`
(v3 lines 134-151)

The loop at v3 lines 141-148 only *builds* the capture coroutines
(`capture_screenshot_task(...)` is an `async def`, so calling it creates an
unstarted coroutine); none of them runs before `asyncio.gather` at line 149.
Hence every `path_to_save.exists()` check at line 145 consults the
filesystem as it was before the batch: the set of existing files is the same
for every iteration and does not grow with the claims made earlier in the
same batch. -/

/-- The candidate file name for a sanitized base name and a collision
counter: `f"{base_name}.png"` for counter 0, else `f"{base_name}_{counter}.png"`
(v3 lines 143 and 147). -/
def png_name (base : String) (counter : Nat) : String :=
  if counter = 0 then base ++ ".png" else base ++ "_" ++ toString counter ++ ".png"

/-- The `while path_to_save.exists()` loop (v3 lines 144-147) against the
fixed pre-batch file set `existing`.  The fuel `existing.length + 1`
suffices: the candidate names are pairwise distinct, so at most
`existing.length` of them can be taken. -/
def claim_path_go (existing : List String) (base : String) : Nat → Nat → String
  | 0, c => png_name base c
  | fuel + 1, c =>
    if existing.contains (png_name base c) then claim_path_go existing base fuel (c + 1)
    else png_name base c

/-- The destination path claimed for one submitted URL path. -/
def claim_path (existing : List String) (base : String) : String :=
  claim_path_go existing base (existing.length + 1) 0

/-- The destination paths assigned by the scheduling loop (v3 lines
141-148) to the submitted URL paths, in submission order.  `existing` is the
set of file names present in the screenshot directory before the batch; it
is constant across iterations because no capture has started yet (see the
section comment). -/
def assign_screenshot_paths (existing : List String) (url_paths : List String) :
    List String :=
  url_paths.map (fun p => claim_path existing (sanitize_path_for_filename p))

/-! ## The batch scheduler as a transition system (v3 lines 116-117,
136-151)

Each capture task wraps its whole body in `async with semaphore`
(v3 line 117), so a task is in flight only while holding one of the
`limit` permits; `await asyncio.gather(*tasks)` (v3 line 149) completes only
after every task has finished (exceptions are swallowed inside the tasks),
and `await browser.close()` (v3 line 150) is sequenced after it. -/

/-- The phase of one scheduled capture task. -/
inductive TaskPhase
  | pending
  | running
  | done
deriving DecidableEq

/-- State of one batch: the phase of each scheduled task and whether the
shared browser session has been closed. -/
structure SchedulerState where
  tasks : List TaskPhase
  browserClosed : Bool
deriving DecidableEq

/-- Number of in-flight captures (tasks between context open and
completion, i.e. holding a semaphore permit). -/
def runningCount (s : SchedulerState) : Nat :=
  s.tasks.countP (fun t => t = TaskPhase.running)

/-- The scheduler's atomic steps.  A pending task may start only when fewer
than `limit` tasks hold permits (the semaphore guard, v3 lines 117/136); a
running task may finish (successfully or via the placeholder branch); the
browser close runs only once `gather` has joined every task (v3 lines
149-150). -/
inductive SchedStep (limit : Nat) : SchedulerState → SchedulerState → Prop
  | start (s : SchedulerState) (i : Nat)
      (hp : s.tasks.get? i = some TaskPhase.pending)
      (hcap : runningCount s < limit) :
      SchedStep limit s ⟨s.tasks.set i TaskPhase.running, s.browserClosed⟩
  | finish (s : SchedulerState) (i : Nat)
      (hr : s.tasks.get? i = some TaskPhase.running) :
      SchedStep limit s ⟨s.tasks.set i TaskPhase.done, s.browserClosed⟩
  | closeBrowser (s : SchedulerState)
      (hdone : ∀ t ∈ s.tasks, t = TaskPhase.done)
      (hopen : s.browserClosed = false) :
      SchedStep limit s ⟨s.tasks, true⟩

/-- States reachable during one batch of `n` scheduled captures under
concurrency limit `limit`, starting from all tasks pending and the browser
session open. -/
inductive SchedReachable (limit n : Nat) : SchedulerState → Prop
  | init : SchedReachable limit n ⟨List.replicate n TaskPhase.pending, false⟩
  | step {s t : SchedulerState} : SchedReachable limit n s →
      SchedStep limit s t → SchedReachable limit n t

/-! ## Process exit codes (v3 lines 87-90, 376-381, 418-428) -/

/-- The run condition relevant to the exit code. -/
inductive FailMode
  | noFailure
  | missingInputFile
  | missingDirsearchExe
  | keyboardInterrupt
  | unexpectedError
deriving DecidableEq

/-- How `main()` terminates, as seen by the `__main__` handlers. -/
inductive MainOutcome
  | returned
  | keyboardInterrupt
  | systemExit (code : Nat)
  | otherException
deriving DecidableEq

/-- Termination of `main()` per run condition:
* a missing `--urls-file` is caught inside `main` (v3 lines 379-381), an
  error is printed and `main` plainly returns;
* a missing `dirsearch` executable triggers `sys.exit(1)` inside
  `run_dirsearch` (v3 lines 87-90), raising `SystemExit 1`;
* `KeyboardInterrupt` and other exceptions propagate out of `main`. -/
def main_outcome : FailMode → MainOutcome
  | .noFailure => .returned
  | .missingInputFile => .returned
  | .missingDirsearchExe => .systemExit 1
  | .keyboardInterrupt => .keyboardInterrupt
  | .unexpectedError => .otherException

/-- The `__main__` block (v3 lines 418-428): normal return exits 0,
`except KeyboardInterrupt` exits 0, `except Exception` exits 1, and
`SystemExit` (not a subclass of `Exception`) passes through both handlers
carrying its own code. -/
def process_exit_code (m : FailMode) : Nat :=
  match main_outcome m with
  | .returned => 0
  | .keyboardInterrupt => 0
  | .systemExit c => c
  | .otherException => 1

/-! ## Master index (v3 lines 183-207, 369-413) -/

/-- One entry of `scan_results`: the dict built for a completed target
(v3 lines 277-281). -/
structure IndexEntry where
  url : String
  gallery_path : String
  preview_path : String
deriving DecidableEq

/-- `is_list_scan` (v3 lines 369-386): true when `--urls-file` was given,
or when the interactive fallback collected more than one target; false for
`--url`. -/
def is_list_scan (cliUrl : Option String) (cliUrlsFileGiven : Bool)
    (interactiveTargets : List String) : Bool :=
  if cliUrl.isSome || cliUrlsFileGiven then cliUrlsFileGiven
  else interactiveTargets.length > 1

/-- The list of targets scanned (v3 lines 371-386): the single `--url`, the
non-blank lines of `--urls-file`, or the interactive targets. -/
def scan_targets (cliUrl : Option String) (urlsFileContents : Option (List String))
    (interactiveTargets : List String) : List String :=
  match cliUrl with
  | some u => [u]
  | none =>
    match urlsFileContents with
    | some ls => ls
    | none => interactiveTargets

/-- `scan_results.sort(key=lambda x: x['url'])` (v3 line 412): Python's
stable list sort by the URL string, embedded as the (extensionally unique)
stable sort `List.mergeSort`. -/
def sort_scan_results (rs : List IndexEntry) : List IndexEntry :=
  rs.mergeSort (fun a b => decide (a.url ≤ b.url))

/-- The master-index step of `main` (v3 lines 410-413): the page is written
only when `is_list_scan` holds and `scan_results` is non-empty, and then
contains one card per completed entry, in URL-sorted order
(`generate_master_index`, v3 lines 183-207, writes one card per element of
the list it receives, in order). -/
def master_index_cards (isListScan : Bool) (scan_results : List IndexEntry) :
    Option (List IndexEntry) :=
  if isListScan && !scan_results.isEmpty then some (sort_scan_results scan_results)
  else none

/-! ## Claim C7 — the sanitizer -/

/-- C7: for every input string, `sanitize_path_for_filename` returns a
non-empty string over `[A-Za-z0-9_-]`; the root path (`""` or `"/"`) maps to
the fixed placeholder `"index"`; any other input whose sanitization becomes
empty maps to the distinct generic placeholder `"page"`.  (Purity holds by
construction: the embedding is a plain function of its argument, exactly as
the Python code touches no external state.) -/
theorem sanitize_nonempty_safe_charset (s : String) :
    sanitize_path_for_filename s ≠ "" ∧
    (∀ c ∈ (sanitize_path_for_filename s).toList, allowedChar c = true) ∧
    ((s = "" ∨ s = "/") → sanitize_path_for_filename s = "index") ∧
    (¬(s = "" ∨ s = "/") → sanitizeCore s = [] → sanitize_path_for_filename s = "page") ∧
    ("index" : String) ≠ "page" := by
  by_cases h : s = "" ∨ s = "/"
  · have hs : sanitize_path_for_filename s = "index" := by
      rcases h with h | h <;> subst h <;> rfl
    exact ⟨by rw [hs]; decide, by rw [hs]; decide, fun _ => hs,
      fun hn => absurd h hn, by decide⟩
  · have hcond : ¬(s = "" || s = "/") = true := by
      simp only [Bool.or_eq_true, decide_eq_true_eq]
      exact h
    have hform : sanitize_path_for_filename s =
        (if (sanitizeCore s).isEmpty then "page" else String.mk (sanitizeCore s)) := by
      unfold sanitize_path_for_filename
      rw [if_neg]
      intro hc
      exact h (by simpa using hc)
    by_cases he : (sanitizeCore s).isEmpty
    · have hp : sanitize_path_for_filename s = "page" := by rw [hform, if_pos he]
      exact ⟨by rw [hp]; decide, by rw [hp]; decide, fun hr => absurd hr h,
        fun _ _ => hp, by decide⟩
    · have hp : sanitize_path_for_filename s = String.mk (sanitizeCore s) := by
        rw [hform, if_neg he]
      have hne : sanitizeCore s ≠ [] := by simpa [List.isEmpty_iff] using he
      refine ⟨?_, ?_, fun hr => absurd hr h, fun _ hnil => absurd hnil hne, by decide⟩
      · rw [hp]
        intro hc
        exact hne (by simpa [String.ext_iff] using hc)
      · rw [hp]
        intro c hc
        have : c ∈ (stripPageExtension ((((s.toList.takeWhile (fun c => c ≠ '?')).dropWhile
            (fun c => c = '/')).reverse.dropWhile (fun c => c = '/')).reverse.map
            (fun c => if c = '/' then '_' else c))).filter allowedChar := hc
        exact (List.mem_filter.mp this).2

/-- C7 witness: the theorem applied at the concrete inputs `""` (root) and
`"???"` (sanitizes to empty). -/
theorem sanitize_nonempty_safe_charset_witness :
    sanitize_path_for_filename "" = "index" ∧ sanitize_path_for_filename "???" = "page" :=
  ⟨(sanitize_nonempty_safe_charset "").2.2.1 (Or.inl rfl),
    (sanitize_nonempty_safe_charset "???").2.2.2.1 (by decide) (by decide)⟩

/-! ## Claim C1 — in-batch collision resolution -/

/-- C1 (refuting evaluation): a batch whose two submitted paths `/foo.php`
and `/foo` both sanitize to `foo` claims the destination `foo.png` **twice**
— the existence checks run before any capture coroutine has started, so the
second submission sees no collision.  The claimed paths are not distinct,
contradicting the specified `foo.png`/`foo_1.png` outcome. -/
theorem collision_assignment_not_distinct :
    assign_screenshot_paths [] ["/foo.php", "/foo"] = ["foo.png", "foo.png"] ∧
    ¬(assign_screenshot_paths [] ["/foo.php", "/foo"]).Nodup := by
  exact ⟨rfl, by decide⟩

/-! ## Claim C8 — process exit codes -/

/-- C8 counterexample: a run whose `--urls-file` does not exist exits with
code 0, not 1 — `main` catches the `FileNotFoundError`, prints an error and
plainly returns (v3 lines 379-381), which the `__main__` block treats as
normal completion. -/
theorem missing_input_file_exits_zero :
    process_exit_code FailMode.missingInputFile = 0 ∧
    ¬process_exit_code FailMode.missingInputFile = 1 := by decide

/-- C8 amended: exit code 0 on normal completion, on user interrupt, and on
a missing input URLs file (which is reported but not fatal to the exit
status); exit code 1 on an unexpected unhandled error or a missing discovery
executable. -/
theorem exit_codes_of_run_conditions :
    process_exit_code FailMode.noFailure = 0 ∧
    process_exit_code FailMode.keyboardInterrupt = 0 ∧
    process_exit_code FailMode.missingInputFile = 0 ∧
    process_exit_code FailMode.missingDirsearchExe = 1 ∧
    process_exit_code FailMode.unexpectedError = 1 := by decide

/-! ## Claim C10 — completed outcome with an unwritten gallery -/

/-- C10: if every capture of a target's batch failed (all screenshot files
are zero-byte), `generate_gallery` returns early without writing the gallery
file, yet `run_scan_for_target` still returns the `completed` outcome whose
`gallery_path` names that never-created file. -/
theorem completed_outcome_references_unwritten_gallery
    (url gallery_path preview_path : String) (files : List (String × Nat))
    (hall : ∀ f ∈ files, f.2 = 0) :
    (run_scan_completion url gallery_path preview_path files).2 = none ∧
    (run_scan_completion url gallery_path preview_path files).1 =
      ScanOutcome.completed url gallery_path preview_path := by
  refine ⟨?_, rfl⟩
  have hfil : files.filter (fun f => 0 < f.2) = [] := by
    rw [List.filter_eq_nil_iff]
    intro f hf
    simp [hall f hf]
  simp [run_scan_completion, generate_gallery, gallery_images, hfil]

/-- C10 witness: a batch with one failed (zero-byte) screenshot. -/
theorem completed_outcome_references_unwritten_gallery_witness :
    (run_scan_completion "https://t" "gallery_x.html" "screenshots/base.png"
        [("base.png", 0)]).2 = none ∧
    (run_scan_completion "https://t" "gallery_x.html" "screenshots/base.png"
        [("base.png", 0)]).1 =
      ScanOutcome.completed "https://t" "gallery_x.html" "screenshots/base.png" :=
  completed_outcome_references_unwritten_gallery "https://t" "gallery_x.html"
    "screenshots/base.png" [("base.png", 0)] (by decide)

/-! ## Claim C2 — the gating decision -/

/-- C2: the gate is a total function of the screenshot count
(`status-200 results + 1`): counts below 10 proceed without consulting the
prompt at all; counts 10-100 proceed on timeout; counts above 100 defer on
timeout or explicit decline, carrying the target URL, the status-200 subset,
the screenshot directory and the count; 150 qualifying URLs under a
timeout-only run defer with count 151. -/
theorem gating_total_function_of_count (url dir : String)
    (results : List DiscoveryRecord) (answer : Option Bool) :
    ((results_with_status_200 results).length + 1 < 10 →
      run_scan_gate url (results_with_status_200 results) dir answer = none) ∧
    (10 ≤ (results_with_status_200 results).length + 1 →
      (results_with_status_200 results).length + 1 ≤ 100 →
      run_scan_gate url (results_with_status_200 results) dir none = none) ∧
    (100 < (results_with_status_200 results).length + 1 →
      (answer = none ∨ answer = some false) →
      run_scan_gate url (results_with_status_200 results) dir answer =
        some (ScanOutcome.deferred url (results_with_status_200 results) dir
          ((results_with_status_200 results).length + 1))) ∧
    ((results_with_status_200 results).length = 150 →
      run_scan_gate url (results_with_status_200 results) dir none =
        some (ScanOutcome.deferred url (results_with_status_200 results) dir 151)) := by
  generalize results_with_status_200 results = r
  refine ⟨fun h => ?_, fun h1 h2 => ?_, fun h ha => ?_, fun h => ?_⟩
  · simp [run_scan_gate, h]
  · unfold run_scan_gate
    rw [if_neg (by omega), if_pos (by omega)]
    simp [ask_with_timeout]
  · unfold run_scan_gate
    rw [if_neg (by omega), if_neg (by omega)]
    rcases ha with ha | ha <;> subst ha <;> simp [ask_with_timeout]
  · unfold run_scan_gate
    rw [if_neg (by omega), if_neg (by omega)]
    simp [ask_with_timeout, h]

/-- C2 witness: a target with 150 status-200 results under a timeout-only
run yields the deferred outcome with count 151. -/
theorem gating_total_function_of_count_witness :
    run_scan_gate "https://t"
        (results_with_status_200 (List.replicate 150 ((200 : Nat), "https://t/a"))) "shots"
        none =
      some (ScanOutcome.deferred "https://t"
        (results_with_status_200 (List.replicate 150 ((200 : Nat), "https://t/a")))
        "shots" 151) :=
  (gating_total_function_of_count "https://t" "shots"
      (List.replicate 150 ((200 : Nat), "https://t/a")) none).2.2.2
    (by simp [results_with_status_200, List.filter_replicate])

/-! ## Claim C4 — the capture unit -/

/-- C4 counterexample: when the destination path already holds a non-empty
file (here 5 bytes) and the capture fails, `Path.touch()` leaves the
existing contents in place — the destination is **not** empty after the
failure, contradicting the claim's "empty on failure" (and the failure
created no zero-byte placeholder). -/
theorem capture_failure_on_preexisting_file_not_empty :
    (capture_screenshot_task ⟨.ok (), .ok (), .error "TimeoutError", .ok 100⟩
        (some 5)).failure = some "TimeoutError" ∧
    (capture_screenshot_task ⟨.ok (), .ok (), .error "TimeoutError", .ok 100⟩
        (some 5)).file = some 5 ∧
    (5 : Nat) ≠ 0 := ⟨rfl, rfl, by decide⟩

/-- C4 amended: `capture_screenshot_task` never propagates a capture error
(the embedding is a total function — every failure is absorbed by the
`except` branch); after the call the destination path always exists; it is
empty on failure provided it did not exist before the call; on success it
holds exactly the image the engine wrote; the browsing context is closed
whenever one was opened, on every exit path; and the gallery includes only
non-empty screenshot files. -/
theorem capture_leaves_file_closes_context (env : CaptureEnv) (file₀ : Option Nat) :
    (capture_screenshot_task env file₀).file.isSome = true ∧
    ((capture_screenshot_task env file₀).contextOpened = true →
      (capture_screenshot_task env file₀).contextClosed = true) ∧
    (file₀ = none → (capture_screenshot_task env file₀).failure.isSome = true →
      (capture_screenshot_task env file₀).file = some 0) ∧
    (∀ n, (capture_screenshot_task env file₀).failure = none →
      env.screenshot = Except.ok n → (capture_screenshot_task env file₀).file = some n) ∧
    (∀ (files : List (String × Nat)) (name : String), name ∈ gallery_images files →
      ∃ sz, (name, sz) ∈ files ∧ 0 < sz) := by
  refine ⟨?_, ?_, ?_, ?_, ?_⟩
  · rcases env with ⟨⟨⟩ | _, ⟨⟩ | _, ⟨⟩ | _, ⟨⟩ | _⟩ <;>
      simp [capture_screenshot_task, capture_body, pyTouch]
  · rcases env with ⟨⟨⟩ | _, ⟨⟩ | _, ⟨⟩ | _, ⟨⟩ | _⟩ <;>
      simp [capture_screenshot_task, capture_body]
  · intro h0 hf
    subst h0
    rcases env with ⟨⟨⟩ | _, ⟨⟩ | _, ⟨⟩ | _, ⟨⟩ | _⟩ <;>
      simp_all [capture_screenshot_task, capture_body, pyTouch]
  · intro n hf hs
    rcases env with ⟨⟨⟩ | _, ⟨⟩ | _, ⟨⟩ | _, ⟨⟩ | _⟩ <;>
      simp_all [capture_screenshot_task, capture_body]
  · intro files name hmem
    unfold gallery_images at hmem
    rw [List.mem_mergeSort] at hmem
    obtain ⟨f, hf, hf1⟩ := List.mem_map.mp hmem
    obtain ⟨hfin, hsz⟩ := List.mem_filter.mp hf
    refine ⟨f.2, ?_, by simpa using hsz⟩
    have : (name, f.2) = f := by
      rcases f with ⟨a, b⟩
      simp_all
    rw [this]
    exact hfin

/-- C4 witness: a failed navigation with no pre-existing destination file
leaves a zero-byte placeholder. -/
theorem capture_leaves_file_closes_context_witness :
    (capture_screenshot_task ⟨.ok (), .ok (), .error "nav", .ok 9⟩ none).file = some 0 :=
  (capture_leaves_file_closes_context ⟨.ok (), .ok (), .error "nav", .ok 9⟩ none).2.2.1
    rfl rfl

/-! ## Claim C6 — `sort_results` is a stable priority sort -/

theorem priorityLE_trans (a b c : DiscoveryRecord) :
    priorityLE a b → priorityLE b c → priorityLE a c := by
  unfold priorityLE
  intro h1 h2
  exact decide_eq_true (Nat.le_trans (of_decide_eq_true h1) (of_decide_eq_true h2))

theorem priorityLE_total (a b : DiscoveryRecord) : priorityLE a b || priorityLE b a := by
  unfold priorityLE
  rcases Nat.le_total (priority a.1) (priority b.1) with h | h <;> simp [h]

/-- Stability of the embedded stable sort, in filter form: the subsequence
of records of any fixed priority class is untouched by sorting. -/
theorem sort_results_filter_priority (l : List DiscoveryRecord) (k : Nat) :
    (sort_results l).filter (fun x => priority x.1 = k) =
      l.filter (fun x => priority x.1 = k) := by
  set p : DiscoveryRecord → Bool := fun x => priority x.1 = k with hp
  have hpair : (l.filter p).Pairwise (fun a b => priorityLE a b = true) := by
    have hall : ∀ a ∈ l.filter p, ∀ b ∈ l.filter p, priorityLE a b = true := by
      intro a ha b hb
      have ha' := (List.mem_filter.mp ha).2
      have hb' := (List.mem_filter.mp hb).2
      have hak : priority a.1 = k := by simpa [hp] using ha'
      have hbk : priority b.1 = k := by simpa [hp] using hb'
      unfold priorityLE
      rw [hak, hbk]
      simp
    exact List.pairwise_of_forall_mem_list hall
  have hsub : List.Sublist (l.filter p) (sort_results l) :=
    List.sublist_mergeSort priorityLE_trans priorityLE_total hpair (List.filter_sublist l)
  have hsub2 : List.Sublist (l.filter p) ((sort_results l).filter p) := by
    have h1 := hsub.filter p
    rw [List.filter_filter] at h1
    simp only [Bool.and_self] at h1
    exact h1
  have hperm : ((sort_results l).filter p).Perm (l.filter p) :=
    (List.mergeSort_perm l priorityLE).filter p
  exact (hsub2.eq_of_length hperm.length_eq.symm).symm

-- Evaluation of the spec scenario; `mergeSort` is sealed by default, so it
-- is unsealed for this definitional computation.
unseal List.merge List.mergeSort in
theorem sort_results_scenario_eval :
    sort_results [(200, "a"), (404, "b"), (301, "c")] =
      [(200, "a"), (301, "c"), (404, "b")] := rfl

/-- C6: `sort_results` is a stable sort by the fixed priority table: lower
ranks come first; records of equal priority keep their original relative
order; sorting is idempotent; and the scenario
`[200 a, 404 b, 301 c]` sorts to `[200 a, 301 c, 404 b]`. -/
theorem classify_stable_priority_sort (l : List DiscoveryRecord) (k : Nat) :
    List.Pairwise (fun a b => priority a.1 ≤ priority b.1) (sort_results l) ∧
    (sort_results l).filter (fun x => priority x.1 = k) =
      l.filter (fun x => priority x.1 = k) ∧
    sort_results (sort_results l) = sort_results l ∧
    sort_results [(200, "a"), (404, "b"), (301, "c")] =
      [(200, "a"), (301, "c"), (404, "b")] := by
  have hsorted : (sort_results l).Pairwise (fun a b => priorityLE a b = true) :=
    List.sorted_mergeSort priorityLE_trans priorityLE_total l
  refine ⟨hsorted.imp ?_, sort_results_filter_priority l k, ?_, sort_results_scenario_eval⟩
  · intro a b h
    exact of_decide_eq_true h
  · exact List.mergeSort_of_sorted hsorted

/-- C6 witness: the theorem instantiated at the scenario input. -/
theorem classify_stable_priority_sort_witness :
    sort_results [(200, "a"), (404, "b"), (301, "c")] =
      [(200, "a"), (301, "c"), (404, "b")] :=
  (classify_stable_priority_sort [] 0).2.2.2

/-! ## Claim C9 — the master index -/

/-- C9 counterexample: a `--urls-file` run with a **single** target whose
scan completed builds the master index (only one target was scanned), and a
two-target run in which no target completed builds none — so "built exactly
when more than one target was scanned" fails in both directions. -/
theorem master_index_not_iff_multi_target :
    (scan_targets none (some ["https://a"]) []).length = 1 ∧
    master_index_cards (is_list_scan none true []) [⟨"https://a", "g.html", "b.png"⟩] =
      some [⟨"https://a", "g.html", "b.png"⟩] ∧
    (scan_targets none (some ["https://a", "https://b"]) []).length = 2 ∧
    master_index_cards (is_list_scan none true []) ([] : List IndexEntry) = none := by
  refine ⟨rfl, ?_, rfl, rfl⟩
  simp [master_index_cards, is_list_scan, sort_scan_results]

theorem indexUrlLE_trans (a b c : IndexEntry) :
    (decide (a.url ≤ b.url) : Bool) → (decide (b.url ≤ c.url) : Bool) →
      (decide (a.url ≤ c.url) : Bool) := by
  intro h1 h2
  exact decide_eq_true (le_trans (of_decide_eq_true h1) (of_decide_eq_true h2))

theorem indexUrlLE_total (a b : IndexEntry) :
    (decide (a.url ≤ b.url) || decide (b.url ≤ a.url)) = true := by
  rcases le_total a.url b.url with h | h <;> simp [h]

/-- C9 amended: the master index is built exactly when the run is a list
scan (`--urls-file`, or an interactive multi-URL list) **and** at least one
target completed; it then contains exactly one card per completed target
(each linking that target's gallery with its base screenshot as thumbnail,
per `generate_master_index`), ordered by target URL. -/
theorem master_index_built_iff_list_scan_with_results (isListScan : Bool)
    (rs : List IndexEntry) :
    ((master_index_cards isListScan rs).isSome = (isListScan && !rs.isEmpty)) ∧
    (∀ cards, master_index_cards isListScan rs = some cards →
      cards.Perm rs ∧ List.Pairwise (fun a b : IndexEntry => a.url ≤ b.url) cards) := by
  constructor
  · unfold master_index_cards
    by_cases h : (isListScan && !rs.isEmpty) = true <;> simp [h]
  · intro cards hc
    unfold master_index_cards at hc
    split at hc
    · cases hc
      constructor
      · exact List.mergeSort_perm rs _
      · have := List.sorted_mergeSort indexUrlLE_trans indexUrlLE_total rs
        exact this.imp fun h => of_decide_eq_true h
    · cases hc

/-- C9 witness: a completed single-entry list scan; its card list is a
permutation of the completed outcomes and is URL-sorted. -/
theorem master_index_built_iff_list_scan_with_results_witness :
    ([⟨"https://a", "g.html", "b.png"⟩] : List IndexEntry).Perm
        [⟨"https://a", "g.html", "b.png"⟩] ∧
    List.Pairwise (fun a b : IndexEntry => a.url ≤ b.url)
        [⟨"https://a", "g.html", "b.png"⟩] :=
  (master_index_built_iff_list_scan_with_results true
      [⟨"https://a", "g.html", "b.png"⟩]).2
    [⟨"https://a", "g.html", "b.png"⟩]
    (by simp [master_index_cards, sort_scan_results])

/-! ## Claim C3 — bounded concurrency and session join -/

/-- Replacing element `i` (known to be `a`) by `b` changes `countP` by the
difference of the two indicator values. -/
theorem countP_set_of_get? {α : Type} (p : α → Bool) :
    ∀ (l : List α) (i : Nat) (a b : α), l.get? i = some a →
      (l.set i b).countP p + (if p a then 1 else 0) =
        l.countP p + (if p b then 1 else 0) := by
  intro l
  induction l with
  | nil => intro i a b h; cases h
  | cons x xs ih =>
    intro i a b h
    cases i with
    | zero =>
      have hx : x = a := by simpa using h
      subst hx
      simp only [List.set_cons_zero, List.countP_cons]
      omega
    | succ j =>
      have h' : xs.get? j = some a := by simpa using h
      have := ih j a b h'
      simp only [List.set_cons_succ, List.countP_cons]
      omega

theorem mem_of_get?_eq_some {α : Type} {l : List α} {i : Nat} {a : α}
    (h : l.get? i = some a) : a ∈ l := by
  induction l generalizing i with
  | nil => cases h
  | cons x xs ih =>
    cases i with
    | zero => simp_all
    | succ j =>
      right
      exact ih (by simpa using h)

/-- Preservation of the batch invariant by one scheduler step. -/
theorem sched_step_invariant {limit : Nat} {s t : SchedulerState}
    (hstep : SchedStep limit s t)
    (ih : runningCount s ≤ limit ∧
      (s.browserClosed = true → ∀ x ∈ s.tasks, x = TaskPhase.done)) :
    runningCount t ≤ limit ∧
      (t.browserClosed = true → ∀ x ∈ t.tasks, x = TaskPhase.done) := by
  cases hstep with
  | start i hp hcap =>
    have hcount := countP_set_of_get? (fun x => x = TaskPhase.running)
      s.tasks i TaskPhase.pending TaskPhase.running hp
    constructor
    · have hnew : runningCount ⟨s.tasks.set i TaskPhase.running, s.browserClosed⟩ =
          (s.tasks.set i TaskPhase.running).countP (fun x => x = TaskPhase.running) :=
        rfl
      rw [if_neg (by decide), if_pos (by decide)] at hcount
      rw [hnew]
      have hold : runningCount s = s.tasks.countP (fun x => x = TaskPhase.running) := rfl
      rw [hold] at hcap
      omega
    · intro hcl
      have hall := ih.2 hcl
      have hmem : TaskPhase.pending ∈ s.tasks := mem_of_get?_eq_some hp
      have := hall _ hmem
      cases this
  | finish i hr =>
    have hcount := countP_set_of_get? (fun x => x = TaskPhase.running)
      s.tasks i TaskPhase.running TaskPhase.done hr
    constructor
    · have hnew : runningCount ⟨s.tasks.set i TaskPhase.done, s.browserClosed⟩ =
          (s.tasks.set i TaskPhase.done).countP (fun x => x = TaskPhase.running) :=
        rfl
      rw [if_pos (by decide), if_neg (by decide)] at hcount
      have hold : runningCount s = s.tasks.countP (fun x => x = TaskPhase.running) := rfl
      have h1 := ih.1
      rw [hold] at h1
      rw [hnew]
      omega
    · intro hcl
      have hall := ih.2 hcl
      have hmem : TaskPhase.running ∈ s.tasks := mem_of_get?_eq_some hr
      have := hall _ hmem
      cases this
  | closeBrowser hdone hopen =>
    exact ⟨ih.1, fun _ => hdone⟩

/-- C3: for every concurrency limit ≥ 1 and every reachable scheduler
state of a batch, at most `limit` captures are in flight simultaneously,
and once the shared browser session has been closed every scheduled task
(successful or failed) has completed — the close happens-after the join of
all tasks. -/
theorem scheduler_bounded_and_closes_after_join (limit n : Nat) (s : SchedulerState)
    (_hlim : 1 ≤ limit) (hreach : SchedReachable limit n s) :
    runningCount s ≤ limit ∧
      (s.browserClosed = true → ∀ t ∈ s.tasks, t = TaskPhase.done) := by
  induction hreach with
  | init =>
    constructor
    · have : runningCount ⟨List.replicate n TaskPhase.pending, false⟩ = 0 := by
        unfold runningCount
        rw [List.countP_eq_zero]
        intro a ha
        have := List.eq_of_mem_replicate ha
        subst this
        decide
      omega
    · intro h
      cases h
  | step hprev hstep ih =>
    exact sched_step_invariant hstep ih

/-- C3 witness: with limit 1 and one scheduled task, the state in which the
single task has started is reachable, and the theorem's invariant holds
there. -/
theorem scheduler_bounded_and_closes_after_join_witness :
    runningCount ⟨[TaskPhase.running], false⟩ ≤ 1 ∧
      ((false : Bool) = true → ∀ t ∈ [TaskPhase.running], t = TaskPhase.done) :=
  scheduler_bounded_and_closes_after_join 1 1 ⟨[TaskPhase.running], false⟩ (by decide)
    (SchedReachable.step SchedReachable.init
      (SchedStep.start ⟨[TaskPhase.pending], false⟩ 0 rfl (by decide)))

/-! ## Claim C5 — the report-line parser -/

/-- Whitespace-splitting into tokens (empty tokens dropped), used to state
the claim's reading of a report line. -/
def splitTokens (cs : List Char) : List (List Char) :=
  let r := cs.foldr
    (fun c acc =>
      if pySpace c then (([] : List Char), if acc.1.isEmpty then acc.2 else acc.1 :: acc.2)
      else (c :: acc.1, acc.2))
    (([] : List Char), ([] : List (List Char)))
  if r.1.isEmpty then r.2 else r.1 :: r.2

/-- The claim's matching condition, from its words: the line begins with a
3-digit status code followed by whitespace-separated tokens **ending in** an
absolute http/https URL. -/
def specLineMatches (cs : List Char) : Bool :=
  match cs with
  | d₁ :: d₂ :: d₃ :: c :: rest =>
    pyDigit d₁ && pyDigit d₂ && pyDigit d₃ && pySpace c &&
      (match (splitTokens (c :: rest)).getLast? with
       | some t => schemeAt t
       | none => false)
  | _ => false

theorem urlStartOk_le_length (cs : List Char) (p : Nat) (h : urlStartOk cs p = true) :
    p ≤ cs.length := by
  unfold urlStartOk at h
  rw [Bool.and_eq_true, Bool.and_eq_true] at h
  have h2 := h.2
  unfold schemeAt at h2
  rw [Bool.or_eq_true, Bool.and_eq_true, Bool.and_eq_true] at h2
  rcases h2 with h2 | h2 <;>
    · have := of_decide_eq_true h2.2
      rw [List.length_drop] at this
      omega

theorem lastUrlStartFrom_eq_some_iff (cs : List Char) :
    ∀ (n p : Nat), lastUrlStartFrom cs n = some p ↔
      (urlStartOk cs p = true ∧ p < n ∧
        ∀ q, urlStartOk cs q = true → q < n → q ≤ p) := by
  intro n
  induction n with
  | zero =>
    intro p
    simp [lastUrlStartFrom]
  | succ m ih =>
    intro p
    unfold lastUrlStartFrom
    by_cases hm : urlStartOk cs m = true
    · rw [if_pos hm]
      constructor
      · intro h
        have hp : m = p := by
          injection h
        subst hp
        exact ⟨hm, Nat.lt_succ_self m, fun q _ hlt => Nat.lt_succ_iff.mp hlt⟩
      · rintro ⟨hok, hlt, hmax⟩
        have h1 : m ≤ p := hmax m hm (Nat.lt_succ_self m)
        have h2 : p = m := by omega
        subst h2
        rfl
    · rw [if_neg hm]
      rw [ih p]
      constructor
      · rintro ⟨hok, hlt, hmax⟩
        refine ⟨hok, by omega, fun q hq hlt2 => ?_⟩
        by_cases hqm : q = m
        · subst hqm
          exact absurd hq hm
        · exact hmax q hq (by omega)
      · rintro ⟨hok, hlt, hmax⟩
        have hpm : p ≠ m := fun he => hm (he ▸ hok)
        exact ⟨hok, by omega, fun q hq hlt2 => hmax q hq (by omega)⟩

theorem lastUrlStart_eq_some_iff (cs : List Char) (p : Nat) :
    lastUrlStart cs = some p ↔
      (urlStartOk cs p = true ∧ ∀ q, urlStartOk cs q = true → q ≤ p) := by
  unfold lastUrlStart
  rw [lastUrlStartFrom_eq_some_iff]
  constructor
  · rintro ⟨hok, _, hmax⟩
    refine ⟨hok, fun q hq => ?_⟩
    have := urlStartOk_le_length cs q hq
    exact hmax q hq (by omega)
  · rintro ⟨hok, hmax⟩
    have := urlStartOk_le_length cs p hok
    exact ⟨hok, by omega, fun q hq _ => hmax q hq⟩

/-- Declarative (amended) characterization of one matched line, phrased
from the amended claim's words: three leading digits, a whitespace character
after them, and a *last* whitespace-preceded `https?://` occurrence (with at
least one following character) at some position `p ≥ 5`; the record is the
3-digit value paired with the whole remainder of the line from `p`, stripped
of surrounding whitespace. -/
def specAmendedLineMatch (cs : List Char) (r : Nat × List Char) : Prop :=
  ∃ d₁ d₂ d₃ c rest, cs = d₁ :: d₂ :: d₃ :: c :: rest ∧
    pyDigit d₁ = true ∧ pyDigit d₂ = true ∧ pyDigit d₃ = true ∧ pySpace c = true ∧
    ∃ p, urlStartOk cs p = true ∧ (∀ q, urlStartOk cs q = true → q ≤ p) ∧
      r = ((d₁.toNat - 48) * 100 + (d₂.toNat - 48) * 10 + (d₃.toNat - 48),
        pyStrip (cs.drop p))

/-- C5 counterexample: (i) the line `"200 OK https://x/a more"` has trailing
content after the URL; the parser matches it but extracts the URL *including*
the trailing content, while the claim's matching condition (tokens ending in
an absolute URL) rejects the line altogether; (ii) the line
`"200 https://x"` begins with a 3-digit code followed by whitespace-separated
tokens ending in an absolute URL — the claim says it produces a record — yet
the parser rejects it (both `\s+` groups of the regex need a whitespace
character, so a lone separator cannot match). -/
theorem parse_line_trailing_content_and_single_separator :
    parse_line ("200 OK https://x/a more".toList) =
      some (200, "https://x/a more".toList) ∧
    specLineMatches ("200 OK https://x/a more".toList) = false ∧
    parse_line ("200 https://x".toList) = none ∧
    specLineMatches ("200 https://x".toList) = true := ⟨rfl, rfl, rfl, rfl⟩

/-- C5 amended: a line produces a record **exactly when** it starts with
three digits followed by a whitespace character and has, at some position
`p ≥ 5` preceded by whitespace, an occurrence of `http://` or `https://`
with at least one further character; the record carries the 3-digit status
value and, as URL, the whole rest of the line from the **last** such
occurrence (any trailing content included), stripped of surrounding
whitespace.  Non-matching lines contribute nothing to
`parse_dirsearch_output` (they are skipped; the parser is a total
function). -/
theorem parse_line_iff_amended (cs : List Char) (r : Nat × List Char) :
    (parse_line cs = some r ↔ specAmendedLineMatch cs r) ∧
    (parse_line cs = none → parse_dirsearch_output [String.mk cs] = []) := by
  constructor
  · constructor
    · intro h
      unfold parse_line at h
      split at h
      case isTrue hh =>
        cases hl : lastUrlStart cs with
        | none =>
          rw [hl] at h
          cases h
        | some p =>
          rw [hl] at h
          have hr : (statusVal cs, pyStrip (cs.drop p)) = r := by
            injection h
          rcases cs with _ | ⟨d₁, _ | ⟨d₂, _ | ⟨d₃, _ | ⟨c, rest⟩⟩⟩⟩ <;>
            try cases hh
          unfold headMatches at hh
          rw [Bool.and_eq_true, Bool.and_eq_true, Bool.and_eq_true] at hh
          obtain ⟨⟨⟨h1, h2⟩, h3⟩, h4⟩ := hh
          obtain ⟨hok, hmax⟩ := (lastUrlStart_eq_some_iff _ p).mp hl
          refine ⟨d₁, d₂, d₃, c, rest, rfl, h1, h2, h3, h4, p, hok, hmax, ?_⟩
          rw [← hr]
          rfl
      case isFalse => cases h
    · rintro ⟨d₁, d₂, d₃, c, rest, hcs, h1, h2, h3, h4, p, hok, hmax, hr⟩
      subst hcs
      subst hr
      unfold parse_line
      have hh : headMatches (d₁ :: d₂ :: d₃ :: c :: rest) = true := by
        simp [headMatches, h1, h2, h3, h4]
      rw [if_pos hh, (lastUrlStart_eq_some_iff _ p).mpr ⟨hok, hmax⟩]
      rfl
  · intro h
    unfold parse_dirsearch_output
    simp only [List.filterMap_cons, List.filterMap_nil]
    have : (String.mk cs).toList = cs := rfl
    rw [this, h]
    rfl

/-- C5 witness: the theorem applied at the well-formed concrete line
`"404  -  http://h"` and at a non-matching line. -/
theorem parse_line_iff_amended_witness :
    specAmendedLineMatch ("404  -  http://h".toList) (404, "http://h".toList) ∧
    parse_dirsearch_output ["no match here"] = [] :=
  ⟨(parse_line_iff_amended ("404  -  http://h".toList) (404, "http://h".toList)).1.mp rfl,
    (parse_line_iff_amended ("no match here".toList) (0, [])).2 rfl⟩

end AdvancedDirsearch
